import Mathlib

/-!
Shallow embedding of `src/innstereo/layer_types.py`.

The module defines the `PlaneLayer` class and three subclasses
(`FaultPlaneLayer`, `LineLayer`, `SmallCircleLayer`) that share every
attribute and almost every method.  All four classes are embedded as the
single structure `PlaneLayer` below (the subclasses add no fields; they
only overwrite `type` and `label` in their constructors, and `LineLayer`
overrides `get_pixbuf`).  Python floats/ints stored in the numeric
attributes are embedded as `ℚ` (every value the program stores is exact).
The GTK tree store and tree view handles are opaque to this module; they
are embedded as `Option Nat`, where `none` plays the role of Python's
`None` and `some n` is an arbitrary live handle.
-/

/-- Opaque external handle (GTK TreeStore / TreeView); `none` models Python
`None`. -/
abbrev Handle := Option Nat

/-- Error kinds that toolkit calls made by the module could surface. -/
inductive LayerError where
  | parseError
  | valueError
  deriving DecidableEq, Repr

/-- The attribute record shared by all four layer classes, with the field
names of `PlaneLayer.__init__` (lines 28-89 of the source). -/
structure PlaneLayer where
  data_treestore : Handle
  data_treeview : Handle
  type : String
  label : String
  render_gcircles : Bool
  line_color : String
  line_width : ℚ
  line_style : String
  line_alpha : ℚ
  capstyle : String
  render_poles : Bool
  pole_style : String
  pole_size : ℚ
  pole_fill : String
  pole_edge_color : String
  pole_edge_width : ℚ
  pole_alpha : ℚ
  render_linears : Bool
  marker_style : String
  marker_size : ℚ
  marker_fill : String
  marker_edge_color : String
  marker_edge_width : ℚ
  marker_alpha : ℚ
  rose_spacing : ℚ
  rose_bottom : ℚ
  draw_hoeppener : Bool
  draw_lp_plane : Bool
  draw_contour_fills : Bool
  draw_contour_lines : Bool
  draw_contour_labels : Bool
  render_plane_contours : Bool
  render_line_contours : Bool
  colormap : String
  contour_resolution : ℚ
  contour_method : String
  contour_sigma : ℚ
  contour_line_color : String
  contour_use_line_color : Bool
  contour_line_width : ℚ
  contour_line_style : String
  contour_label_size : ℚ
  deriving DecidableEq, Repr

/-- `PlaneLayer.__init__` (source lines 28-89): stores the two handles and
initializes every styling attribute to its hardcoded default. -/
def PlaneLayer.init (treestore treeview : Handle) : PlaneLayer where
  data_treestore := treestore
  data_treeview := treeview
  type := "plane"
  label := "Plane layer"
  render_gcircles := true
  line_color := "#0000ff"
  line_width := 1
  line_style := "-"
  line_alpha := 1
  capstyle := "butt"
  render_poles := false
  pole_style := "o"
  pole_size := 8
  pole_fill := "#ff7e00"
  pole_edge_color := "#000000"
  pole_edge_width := 1
  pole_alpha := 1
  render_linears := true
  marker_style := "o"
  marker_size := 8
  marker_fill := "#1283eb"
  marker_edge_color := "#000000"
  marker_edge_width := 1
  marker_alpha := 1
  rose_spacing := 10
  rose_bottom := 0
  draw_hoeppener := false
  draw_lp_plane := false
  draw_contour_fills := false
  draw_contour_lines := false
  draw_contour_labels := false
  render_plane_contours := false
  render_line_contours := true
  colormap := "Blues"
  contour_resolution := 40
  contour_method := "exponential_kamb"
  contour_sigma := 2
  contour_line_color := "#000000"
  contour_use_line_color := true
  contour_line_width := 1
  contour_line_style := "-"
  contour_label_size := 12

/-- `FaultPlaneLayer.__init__` (source lines 906-915): delegates to
`PlaneLayer.__init__`, then overwrites `type` and `label`. -/
def FaultPlaneLayer.init (treestore treeview : Handle) : PlaneLayer :=
  { PlaneLayer.init treestore treeview with
    type := "faultplane", label := "Faultplane layer" }

/-- `LineLayer.__init__` (source lines 930-940): delegates to
`PlaneLayer.__init__`, then overwrites `type` and `label`. -/
def LineLayer.init (treestore treeview : Handle) : PlaneLayer :=
  { PlaneLayer.init treestore treeview with
    type := "line", label := "Linear layer" }

/-- `SmallCircleLayer.__init__` (source lines 969-979): delegates to
`PlaneLayer.__init__`, then overwrites `type` and `label`. -/
def SmallCircleLayer.init (treestore treeview : Handle) : PlaneLayer :=
  { PlaneLayer.init treestore treeview with
    type := "smallcircle", label := "Small circle layer" }

/-! ## Plain accessors

Each `get_*` below is the direct translation of the source method of the
same name (a bare field read), and each `set_*` of the source setter (a
bare field overwrite).  The source has no `set_pole_alpha`: the
`get_pole_alpha` method at lines 385-391 is immediately followed by
`get_marker_style`, so no such setter is defined here either. -/

/-- Source lines 181-188. -/
def PlaneLayer.get_data_treestore (self : PlaneLayer) : Handle :=
  self.data_treestore

/-- Source lines 190-198. -/
def PlaneLayer.get_data_treeview (self : PlaneLayer) : Handle :=
  self.data_treeview

/-- Source lines 200-207. -/
def PlaneLayer.get_layer_type (self : PlaneLayer) : String :=
  self.type

/-- Source lines 209-217. -/
def PlaneLayer.get_line_color (self : PlaneLayer) : String :=
  self.line_color

/-- Source lines 219-225. -/
def PlaneLayer.set_line_color (self : PlaneLayer) (new_color : String) :
    PlaneLayer :=
  { self with line_color := new_color }

/-- Source lines 227-234. -/
def PlaneLayer.get_label (self : PlaneLayer) : String :=
  self.label

/-- Source lines 236-243. -/
def PlaneLayer.set_label (self : PlaneLayer) (new_label : String) :
    PlaneLayer :=
  { self with label := new_label }

/-- Source lines 245-252. -/
def PlaneLayer.get_line_width (self : PlaneLayer) : ℚ :=
  self.line_width

/-- Source lines 254-261. -/
def PlaneLayer.set_line_width (self : PlaneLayer) (new_line_width : ℚ) :
    PlaneLayer :=
  { self with line_width := new_line_width }

/-- Source lines 263-270. -/
def PlaneLayer.get_line_style (self : PlaneLayer) : String :=
  self.line_style

/-- Source lines 272-280. -/
def PlaneLayer.set_line_style (self : PlaneLayer) (new_line_style : String) :
    PlaneLayer :=
  { self with line_style := new_line_style }

/-- Source lines 282-289. -/
def PlaneLayer.get_capstyle (self : PlaneLayer) : String :=
  self.capstyle

/-- Source lines 291-297. -/
def PlaneLayer.set_capstyle (self : PlaneLayer) (new_capstyle : String) :
    PlaneLayer :=
  { self with capstyle := new_capstyle }

/-- Source lines 299-306. -/
def PlaneLayer.get_pole_style (self : PlaneLayer) : String :=
  self.pole_style

/-- Source lines 308-315. -/
def PlaneLayer.set_pole_style (self : PlaneLayer) (new_pole_style : String) :
    PlaneLayer :=
  { self with pole_style := new_pole_style }

/-- Source lines 317-323. -/
def PlaneLayer.get_pole_size (self : PlaneLayer) : ℚ :=
  self.pole_size

/-- Source lines 325-332. -/
def PlaneLayer.set_pole_size (self : PlaneLayer) (new_pole_size : ℚ) :
    PlaneLayer :=
  { self with pole_size := new_pole_size }

/-- Source lines 334-340. -/
def PlaneLayer.get_pole_fill (self : PlaneLayer) : String :=
  self.pole_fill

/-- Source lines 342-349. -/
def PlaneLayer.set_pole_fill (self : PlaneLayer) (new_pole_fill : String) :
    PlaneLayer :=
  { self with pole_fill := new_pole_fill }

/-- Source lines 351-357. -/
def PlaneLayer.get_pole_edge_color (self : PlaneLayer) : String :=
  self.pole_edge_color

/-- Source lines 359-366. -/
def PlaneLayer.set_pole_edge_color (self : PlaneLayer)
    (new_pole_edge_color : String) : PlaneLayer :=
  { self with pole_edge_color := new_pole_edge_color }

/-- Source lines 368-374. -/
def PlaneLayer.get_pole_edge_width (self : PlaneLayer) : ℚ :=
  self.pole_edge_width

/-- Source lines 376-383. -/
def PlaneLayer.set_pole_edge_width (self : PlaneLayer)
    (new_pole_edge_width : ℚ) : PlaneLayer :=
  { self with pole_edge_width := new_pole_edge_width }

/-- Source lines 385-391; the source defines no matching setter. -/
def PlaneLayer.get_pole_alpha (self : PlaneLayer) : ℚ :=
  self.pole_alpha

/-- Source lines 393-401. -/
def PlaneLayer.get_marker_style (self : PlaneLayer) : String :=
  self.marker_style

/-- Source lines 403-410. -/
def PlaneLayer.set_marker_style (self : PlaneLayer)
    (new_marker_style : String) : PlaneLayer :=
  { self with marker_style := new_marker_style }

/-- Source lines 412-419. -/
def PlaneLayer.get_marker_size (self : PlaneLayer) : ℚ :=
  self.marker_size

/-- Source lines 421-428. -/
def PlaneLayer.set_marker_size (self : PlaneLayer) (new_marker_size : ℚ) :
    PlaneLayer :=
  { self with marker_size := new_marker_size }

/-- Source lines 430-438. -/
def PlaneLayer.get_marker_fill (self : PlaneLayer) : String :=
  self.marker_fill

/-- Source lines 440-447. -/
def PlaneLayer.set_marker_fill (self : PlaneLayer) (new_marker_fill : String) :
    PlaneLayer :=
  { self with marker_fill := new_marker_fill }

/-- Source lines 449-457. -/
def PlaneLayer.get_marker_edge_width (self : PlaneLayer) : ℚ :=
  self.marker_edge_width

/-- Source lines 459-466. -/
def PlaneLayer.set_marker_edge_width (self : PlaneLayer)
    (new_marker_edge_width : ℚ) : PlaneLayer :=
  { self with marker_edge_width := new_marker_edge_width }

/-- Source lines 468-476. -/
def PlaneLayer.get_marker_edge_color (self : PlaneLayer) : String :=
  self.marker_edge_color

/-- Source lines 478-485. -/
def PlaneLayer.set_marker_edge_color (self : PlaneLayer)
    (new_marker_edge_color : String) : PlaneLayer :=
  { self with marker_edge_color := new_marker_edge_color }

/-- Source lines 487-493. -/
def PlaneLayer.get_line_alpha (self : PlaneLayer) : ℚ :=
  self.line_alpha

/-- Source lines 495-502. -/
def PlaneLayer.set_line_alpha (self : PlaneLayer) (new_line_alpha : ℚ) :
    PlaneLayer :=
  { self with line_alpha := new_line_alpha }

/-- Source lines 504-510. -/
def PlaneLayer.get_marker_alpha (self : PlaneLayer) : ℚ :=
  self.marker_alpha

/-- Source lines 512-519. -/
def PlaneLayer.set_marker_alpha (self : PlaneLayer) (new_marker_alpha : ℚ) :
    PlaneLayer :=
  { self with marker_alpha := new_marker_alpha }

/-- Source lines 521-528. -/
def PlaneLayer.get_render_gcircles (self : PlaneLayer) : Bool :=
  self.render_gcircles

/-- Source lines 530-537. -/
def PlaneLayer.set_render_gcircles (self : PlaneLayer)
    (new_render_gcircles_state : Bool) : PlaneLayer :=
  { self with render_gcircles := new_render_gcircles_state }

/-- Source lines 539-546. -/
def PlaneLayer.get_render_poles (self : PlaneLayer) : Bool :=
  self.render_poles

/-- Source lines 548-555. -/
def PlaneLayer.set_render_poles (self : PlaneLayer)
    (new_render_poles_state : Bool) : PlaneLayer :=
  { self with render_poles := new_render_poles_state }

/-- Source lines 557-564. -/
def PlaneLayer.get_render_linears (self : PlaneLayer) : Bool :=
  self.render_linears

/-- Source lines 566-573. -/
def PlaneLayer.set_render_linears (self : PlaneLayer)
    (new_render_linears_state : Bool) : PlaneLayer :=
  { self with render_linears := new_render_linears_state }

/-- Source lines 575-582. -/
def PlaneLayer.get_draw_contour_fills (self : PlaneLayer) : Bool :=
  self.draw_contour_fills

/-- Source lines 584-591. -/
def PlaneLayer.set_draw_contour_fills (self : PlaneLayer) (new_state : Bool) :
    PlaneLayer :=
  { self with draw_contour_fills := new_state }

/-- Source lines 593-600. -/
def PlaneLayer.get_draw_contour_lines (self : PlaneLayer) : Bool :=
  self.draw_contour_lines

/-- Source lines 602-609. -/
def PlaneLayer.set_draw_contour_lines (self : PlaneLayer) (new_state : Bool) :
    PlaneLayer :=
  { self with draw_contour_lines := new_state }

/-- Source lines 611-618. -/
def PlaneLayer.get_draw_contour_labels (self : PlaneLayer) : Bool :=
  self.draw_contour_labels

/-- Source lines 620-627. -/
def PlaneLayer.set_draw_contour_labels (self : PlaneLayer) (new_state : Bool) :
    PlaneLayer :=
  { self with draw_contour_labels := new_state }

/-- Source lines 629-637: despite the name, reads `render_plane_contours`. -/
def PlaneLayer.get_render_pole_contours (self : PlaneLayer) : Bool :=
  self.render_plane_contours

/-- Source lines 639-646: despite the name, writes `render_plane_contours`. -/
def PlaneLayer.set_render_pole_contours (self : PlaneLayer)
    (new_state : Bool) : PlaneLayer :=
  { self with render_plane_contours := new_state }

/-- Source lines 648-654. -/
def PlaneLayer.get_render_line_contours (self : PlaneLayer) : Bool :=
  self.render_line_contours

/-- Source lines 656-663. -/
def PlaneLayer.set_render_line_contours (self : PlaneLayer)
    (new_state : Bool) : PlaneLayer :=
  { self with render_line_contours := new_state }

/-- Source lines 665-671. -/
def PlaneLayer.get_rose_spacing (self : PlaneLayer) : ℚ :=
  self.rose_spacing

/-- Source lines 673-680. -/
def PlaneLayer.set_rose_spacing (self : PlaneLayer) (new_spacing : ℚ) :
    PlaneLayer :=
  { self with rose_spacing := new_spacing }

/-- Source lines 682-688. -/
def PlaneLayer.get_rose_bottom (self : PlaneLayer) : ℚ :=
  self.rose_bottom

/-- Source lines 690-697. -/
def PlaneLayer.set_rose_bottom (self : PlaneLayer) (new_bottom : ℚ) :
    PlaneLayer :=
  { self with rose_bottom := new_bottom }

/-- Source lines 699-705. -/
def PlaneLayer.get_colormap (self : PlaneLayer) : String :=
  self.colormap

/-- Source lines 707-713. -/
def PlaneLayer.set_colormap (self : PlaneLayer) (new_colormap : String) :
    PlaneLayer :=
  { self with colormap := new_colormap }

/-- Source lines 715-721. -/
def PlaneLayer.get_contour_resolution (self : PlaneLayer) : ℚ :=
  self.contour_resolution

/-- Source lines 723-729. -/
def PlaneLayer.set_contour_resolution (self : PlaneLayer)
    (new_resolution : ℚ) : PlaneLayer :=
  { self with contour_resolution := new_resolution }

/-- Source lines 731-737. -/
def PlaneLayer.get_contour_method (self : PlaneLayer) : String :=
  self.contour_method

/-- Source lines 739-745. -/
def PlaneLayer.set_contour_method (self : PlaneLayer) (new_method : String) :
    PlaneLayer :=
  { self with contour_method := new_method }

/-- Source lines 747-753. -/
def PlaneLayer.get_contour_line_width (self : PlaneLayer) : ℚ :=
  self.contour_line_width

/-- Source lines 755-761. -/
def PlaneLayer.set_contour_line_width (self : PlaneLayer) (new_width : ℚ) :
    PlaneLayer :=
  { self with contour_line_width := new_width }

/-- Source lines 763-769. -/
def PlaneLayer.get_contour_line_color (self : PlaneLayer) : String :=
  self.contour_line_color

/-- Source lines 771-777. -/
def PlaneLayer.set_contour_line_color (self : PlaneLayer)
    (new_color : String) : PlaneLayer :=
  { self with contour_line_color := new_color }

/-- Source lines 790-796. -/
def PlaneLayer.get_contour_sigma (self : PlaneLayer) : ℚ :=
  self.contour_sigma

/-- Source lines 798-804. -/
def PlaneLayer.set_contour_sigma (self : PlaneLayer) (new_sigma : ℚ) :
    PlaneLayer :=
  { self with contour_sigma := new_sigma }

/-- Source lines 806-812. -/
def PlaneLayer.get_contour_line_style (self : PlaneLayer) : String :=
  self.contour_line_style

/-- Source lines 814-820. -/
def PlaneLayer.set_contour_line_style (self : PlaneLayer)
    (new_style : String) : PlaneLayer :=
  { self with contour_line_style := new_style }

/-- Source lines 822-828. -/
def PlaneLayer.get_contour_label_size (self : PlaneLayer) : ℚ :=
  self.contour_label_size

/-- Source lines 830-836. -/
def PlaneLayer.set_contour_label_size (self : PlaneLayer) (new_size : ℚ) :
    PlaneLayer :=
  { self with contour_label_size := new_size }

/-- Source lines 838-846: reads `contour_use_line_color`. -/
def PlaneLayer.get_use_line_color (self : PlaneLayer) : Bool :=
  self.contour_use_line_color

/-- Source lines 848-856: writes `contour_use_line_color`. -/
def PlaneLayer.set_use_line_color (self : PlaneLayer) (new_state : Bool) :
    PlaneLayer :=
  { self with contour_use_line_color := new_state }

/-- Source lines 858-866. -/
def PlaneLayer.get_draw_hoeppener (self : PlaneLayer) : Bool :=
  self.draw_hoeppener

/-- Source lines 868-875. -/
def PlaneLayer.set_draw_hoeppener (self : PlaneLayer) (new_state : Bool) :
    PlaneLayer :=
  { self with draw_hoeppener := new_state }

/-- Source lines 877-884. -/
def PlaneLayer.get_draw_lp_plane (self : PlaneLayer) : Bool :=
  self.draw_lp_plane

/-- Source lines 886-893. -/
def PlaneLayer.set_draw_lp_plane (self : PlaneLayer) (new_state : Bool) :
    PlaneLayer :=
  { self with draw_lp_plane := new_state }

/-! ## Toolkit model and color derivation

`get_pixbuf` and the `get_*rgba` methods call into GTK (`GdkPixbuf`,
`Gdk.RGBA`, `Gdk.Color`) and into Python's `int(s, base=16)`.  Those
callees are not part of this repository; they are modelled here exactly as
the documented toolkit behaviour the source relies on:

* `int(s, 16)` accepts an optional `0x`/`0X` marker followed by at least
  one hex digit and raises `ValueError` otherwise (the inputs the source
  builds never carry signs, spaces or underscores, so those forms are not
  modelled);
* `Gdk.RGBA()` starts with all four channels 0.0; `Gdk.RGBA.parse`
  RETURNS a success boolean and never raises: on success it stores the
  parsed channels scaled to [0,1], on failure it leaves the value
  unmodified.  The colour strings this module stores are `#RRGGBB`
  triplets, the only textual form modelled (Modelled from the spec: the
  derived-colour getters parse the corresponding hex-triplet attribute);
* `Gdk.RGBA.to_color` converts to a `Gdk.Color` with three 16-bit
  channels (channel times 65535, truncated) and no alpha field;
* `GdkPixbuf.Pixbuf.new(RGB, True, 8, 16, 16)` followed by `fill(p)`
  yields a 16 by 16 RGBA image uniformly filled with the pixel `p`, whose
  bytes from most to least significant are red, green, blue, alpha. -/

/-- Value of one hex digit, or `none` for a non-digit. -/
def hexDigitVal (c : Char) : Option Nat :=
  if ('0' ≤ c ∧ c ≤ '9') then some (c.toNat - '0'.toNat)
  else if ('a' ≤ c ∧ c ≤ 'f') then some (c.toNat - 'a'.toNat + 10)
  else if ('A' ≤ c ∧ c ≤ 'F') then some (c.toNat - 'A'.toNat + 10)
  else none

/-- Value of a run of hex digits read most-significant first; `none` if any
character is not a hex digit. -/
def hexDigitsVal (l : List Char) : Option Nat :=
  l.foldl
    (fun acc c =>
      match acc, hexDigitVal c with
      | some n, some d => some (16 * n + d)
      | _, _ => none)
    (some 0)

/-- Python `int(s, base=16)` on the strings this module builds, taken as a
character list: an optional `0x`/`0X` marker then one or more hex digits;
`none` models the `ValueError` raised on anything else. -/
def pyIntHex (l : List Char) : Option Nat :=
  match l with
  | ['0', 'x'] => none
  | ['0', 'X'] => none
  | '0' :: 'x' :: ds => hexDigitsVal ds
  | '0' :: 'X' :: ds => hexDigitsVal ds
  | [] => none
  | ds => hexDigitsVal ds

/-- A `#RRGGBB` hex triplet decoded to its three 8-bit components. -/
def parseHexTriplet (s : String) : Option (Nat × Nat × Nat) :=
  match s.data with
  | ['#', r1, r2, g1, g2, b1, b2] =>
    match hexDigitVal r1, hexDigitVal r2, hexDigitVal g1, hexDigitVal g2,
        hexDigitVal b1, hexDigitVal b2 with
    | some a, some b, some c, some d, some e, some f =>
      some (16 * a + b, 16 * c + d, 16 * e + f)
    | _, _, _, _, _, _ => none
  | _ => none

/-- An exact fraction `num / den`.  `Gdk.RGBA` stores its channels as
floating values in [0,1]; every channel this module produces is a byte
over 255 (or exactly 0 or 1), which this representation carries with no
rounding.  For these values the double-precision arithmetic of the real
toolkit stays within one unit of the exact result, inside the same high
byte of the 16-bit channel. -/
structure Frac where
  num : Nat
  den : Nat
  deriving DecidableEq, Repr

/-- The 16-bit channel value a [0,1] fraction scales to (times 65535,
truncated). -/
def Frac.scale16 (f : Frac) : Nat := f.num * 65535 / f.den

/-- `Gdk.RGBA`: four [0,1] channels. -/
structure GdkRGBA where
  red : Frac
  green : Frac
  blue : Frac
  alpha : Frac
  deriving DecidableEq, Repr

/-- `Gdk.RGBA()` with no arguments: all channels 0.0. -/
def GdkRGBA.mk0 : GdkRGBA := ⟨⟨0, 1⟩, ⟨0, 1⟩, ⟨0, 1⟩, ⟨0, 1⟩⟩

/-- `Gdk.RGBA.parse(spec)`: returns the success flag together with the
updated value; on failure the value is unmodified. -/
def GdkRGBA.parse (r : GdkRGBA) (spec : String) : Bool × GdkRGBA :=
  match parseHexTriplet spec with
  | some (rr, gg, bb) =>
    (true, ⟨⟨rr, 255⟩, ⟨gg, 255⟩, ⟨bb, 255⟩, ⟨1, 1⟩⟩)
  | none => (false, r)

/-- `Gdk.Color`: three 16-bit channels, no alpha field. -/
structure GdkColor where
  red : Nat
  green : Nat
  blue : Nat
  deriving DecidableEq, Repr

/-- `Gdk.RGBA.to_color()`: scales each channel to 16 bits. -/
def GdkRGBA.to_color (r : GdkRGBA) : GdkColor :=
  ⟨r.red.scale16, r.green.scale16, r.blue.scale16⟩

/-- The 8-bit component a 16-bit `Gdk.Color` channel decodes to (its high
byte). -/
def gdkColorByte (c : Nat) : Nat := c / 256

/-- The pixbuf the source builds: fixed 16 by 16 RGBA image, uniformly
filled with one pixel value whose byte order is red, green, blue, alpha. -/
structure Pixbuf where
  width : Nat
  height : Nat
  has_alpha : Bool
  fill_pixel : Nat
  deriving DecidableEq, Repr

/-- Red byte of a fill pixel. -/
def pixelRed (p : Nat) : Nat := p / 16777216 % 256

/-- Green byte of a fill pixel. -/
def pixelGreen (p : Nat) : Nat := p / 65536 % 256

/-- Blue byte of a fill pixel. -/
def pixelBlue (p : Nat) : Nat := p / 256 % 256

/-- Alpha byte of a fill pixel. -/
def pixelAlpha (p : Nat) : Nat := p % 256

/-- `PlaneLayer.get_pixbuf` (source lines 91-106): drops the first
character of `line_color`, appends `"ff"` for the alpha, parses the result
as hex via `int(..., base=16)` (which raises `ValueError` on a malformed
string, hence the `Except`), and fills a fresh 16 by 16 RGBA pixbuf. -/
def PlaneLayer.get_pixbuf (self : PlaneLayer) :
    Except LayerError Pixbuf :=
  match pyIntHex ('0' :: 'x' :: (self.line_color.data.drop 1 ++ ['f', 'f'])) with
  | none => Except.error LayerError.valueError
  | some line_color_alpha =>
    Except.ok ⟨16, 16, true, line_color_alpha⟩

/-- `LineLayer.get_pixbuf` (source lines 942-956): overrides the base
method, deriving the fill from `marker_fill` instead of `line_color`. -/
def LineLayer.get_pixbuf (self : PlaneLayer) :
    Except LayerError Pixbuf :=
  match pyIntHex ('0' :: 'x' :: (self.marker_fill.data.drop 1 ++ ['f', 'f'])) with
  | none => Except.error LayerError.valueError
  | some marker_color_alpha =>
    Except.ok ⟨16, 16, true, marker_color_alpha⟩

/-- `PlaneLayer.get_rgba` (source lines 108-121): builds a fresh
`Gdk.RGBA`, parses `line_color` into it DISCARDING the success flag, and
converts to a `Gdk.Color`.  No path of the method raises, so the
translation never returns `Except.error`; the `Except` codomain records
that a raised toolkit error would surface to the caller if one occurred. -/
def PlaneLayer.get_rgba (self : PlaneLayer) : Except LayerError GdkColor :=
  let rgba := GdkRGBA.mk0
  let rgba := (rgba.parse self.line_color).2
  Except.ok rgba.to_color

/-- `PlaneLayer.get_marker_rgba` (source lines 123-136). -/
def PlaneLayer.get_marker_rgba (self : PlaneLayer) :
    Except LayerError GdkColor :=
  let rgba := GdkRGBA.mk0
  let rgba := (rgba.parse self.marker_fill).2
  Except.ok rgba.to_color

/-- `PlaneLayer.get_pole_rgba` (source lines 138-151). -/
def PlaneLayer.get_pole_rgba (self : PlaneLayer) :
    Except LayerError GdkColor :=
  let rgba := GdkRGBA.mk0
  let rgba := (rgba.parse self.pole_fill).2
  Except.ok rgba.to_color

/-- `PlaneLayer.get_pole_edge_rgba` (source lines 153-165). -/
def PlaneLayer.get_pole_edge_rgba (self : PlaneLayer) :
    Except LayerError GdkColor :=
  let rgba := GdkRGBA.mk0
  let rgba := (rgba.parse self.pole_edge_color).2
  Except.ok rgba.to_color

/-- `PlaneLayer.get_marker_edge_rgba` (source lines 167-179). -/
def PlaneLayer.get_marker_edge_rgba (self : PlaneLayer) :
    Except LayerError GdkColor :=
  let rgba := GdkRGBA.mk0
  let rgba := (rgba.parse self.marker_edge_color).2
  Except.ok rgba.to_color

/-- `PlaneLayer.get_contour_line_rgba` (source lines 779-788). -/
def PlaneLayer.get_contour_line_rgba (self : PlaneLayer) :
    Except LayerError GdkColor :=
  let rgba := GdkRGBA.mk0
  let rgba := (rgba.parse self.contour_line_color).2
  Except.ok rgba.to_color

/-! ## Construction as an expression

`PlaneLayer(treestore, treeview)` in Python either raises or returns the
new object.  `__init__` (lines 28-89) only performs attribute
assignments, so no argument value makes it raise; the `Except` codomain
records where a construction-time error would surface if one occurred. -/

/-- The expression `PlaneLayer(treestore, treeview)`. -/
def PlaneLayer.create (treestore treeview : Handle) :
    Except LayerError PlaneLayer :=
  Except.ok (PlaneLayer.init treestore treeview)

/-- The expression `FaultPlaneLayer(treestore, treeview)`. -/
def FaultPlaneLayer.create (treestore treeview : Handle) :
    Except LayerError PlaneLayer :=
  Except.ok (FaultPlaneLayer.init treestore treeview)

/-- The expression `LineLayer(treestore, treeview)`. -/
def LineLayer.create (treestore treeview : Handle) :
    Except LayerError PlaneLayer :=
  Except.ok (LineLayer.init treestore treeview)

/-- The expression `SmallCircleLayer(treestore, treeview)`. -/
def SmallCircleLayer.create (treestore treeview : Handle) :
    Except LayerError PlaneLayer :=
  Except.ok (SmallCircleLayer.init treestore treeview)

/-! ## Accessor surface

The claims quantify over "every attribute" and "every setter".  `Attr`
enumerates the attributes the class stores (one constructor per field of
`PlaneLayer`), and `SetterCall` enumerates the setter methods the source
defines, each with its argument.  `hasGetter` and `hasSetter` record which
accessors exist in the source; `getAttr`, `applySetter`, `setterTarget`
and `setterArg` tie the enumerations to the translated methods above. -/

/-- One constructor per attribute stored by `PlaneLayer.__init__`. -/
inductive Attr where
  | data_treestore
  | data_treeview
  | kind
  | label
  | render_gcircles
  | line_color
  | line_width
  | line_style
  | line_alpha
  | capstyle
  | render_poles
  | pole_style
  | pole_size
  | pole_fill
  | pole_edge_color
  | pole_edge_width
  | pole_alpha
  | render_linears
  | marker_style
  | marker_size
  | marker_fill
  | marker_edge_color
  | marker_edge_width
  | marker_alpha
  | rose_spacing
  | rose_bottom
  | draw_hoeppener
  | draw_lp_plane
  | draw_contour_fills
  | draw_contour_lines
  | draw_contour_labels
  | render_plane_contours
  | render_line_contours
  | colormap
  | contour_resolution
  | contour_method
  | contour_sigma
  | contour_line_color
  | contour_use_line_color
  | contour_line_width
  | contour_line_style
  | contour_label_size
  deriving DecidableEq, Repr

/-- The value an attribute holds. -/
inductive AttrValue where
  | strV (v : String)
  | ratV (v : ℚ)
  | boolV (v : Bool)
  | handleV (v : Handle)
  deriving DecidableEq, Repr

/-- Whether the source defines a getter method for the attribute (it does
for every attribute). -/
def hasGetter (a : Attr) : Bool :=
  match a with
  | _ => true

/-- Whether the source defines a setter method writing the attribute.
Read off the method list of `layer_types.py`: the tree store, the tree
view and the layer type have no setter, and no `set_pole_alpha` exists
anywhere in the file; every other attribute has one. -/
def hasSetter (a : Attr) : Bool :=
  match a with
  | .data_treestore => false
  | .data_treeview => false
  | .kind => false
  | .pole_alpha => false
  | _ => true

/-- Read an attribute through the corresponding getter method. -/
def getAttr (l : PlaneLayer) (a : Attr) : AttrValue :=
  match a with
  | .data_treestore => .handleV l.get_data_treestore
  | .data_treeview => .handleV l.get_data_treeview
  | .kind => .strV l.get_layer_type
  | .label => .strV l.get_label
  | .render_gcircles => .boolV l.get_render_gcircles
  | .line_color => .strV l.get_line_color
  | .line_width => .ratV l.get_line_width
  | .line_style => .strV l.get_line_style
  | .line_alpha => .ratV l.get_line_alpha
  | .capstyle => .strV l.get_capstyle
  | .render_poles => .boolV l.get_render_poles
  | .pole_style => .strV l.get_pole_style
  | .pole_size => .ratV l.get_pole_size
  | .pole_fill => .strV l.get_pole_fill
  | .pole_edge_color => .strV l.get_pole_edge_color
  | .pole_edge_width => .ratV l.get_pole_edge_width
  | .pole_alpha => .ratV l.get_pole_alpha
  | .render_linears => .boolV l.get_render_linears
  | .marker_style => .strV l.get_marker_style
  | .marker_size => .ratV l.get_marker_size
  | .marker_fill => .strV l.get_marker_fill
  | .marker_edge_color => .strV l.get_marker_edge_color
  | .marker_edge_width => .ratV l.get_marker_edge_width
  | .marker_alpha => .ratV l.get_marker_alpha
  | .rose_spacing => .ratV l.get_rose_spacing
  | .rose_bottom => .ratV l.get_rose_bottom
  | .draw_hoeppener => .boolV l.get_draw_hoeppener
  | .draw_lp_plane => .boolV l.get_draw_lp_plane
  | .draw_contour_fills => .boolV l.get_draw_contour_fills
  | .draw_contour_lines => .boolV l.get_draw_contour_lines
  | .draw_contour_labels => .boolV l.get_draw_contour_labels
  | .render_plane_contours => .boolV l.get_render_pole_contours
  | .render_line_contours => .boolV l.get_render_line_contours
  | .colormap => .strV l.get_colormap
  | .contour_resolution => .ratV l.get_contour_resolution
  | .contour_method => .strV l.get_contour_method
  | .contour_sigma => .ratV l.get_contour_sigma
  | .contour_line_color => .strV l.get_contour_line_color
  | .contour_use_line_color => .boolV l.get_use_line_color
  | .contour_line_width => .ratV l.get_contour_line_width
  | .contour_line_style => .strV l.get_contour_line_style
  | .contour_label_size => .ratV l.get_contour_label_size

/-- One constructor per setter method the source defines, with its
argument.  Note there is no `set_pole_alpha` constructor, matching the
source. -/
inductive SetterCall where
  | set_line_color (v : String)
  | set_label (v : String)
  | set_line_width (v : ℚ)
  | set_line_style (v : String)
  | set_capstyle (v : String)
  | set_pole_style (v : String)
  | set_pole_size (v : ℚ)
  | set_pole_fill (v : String)
  | set_pole_edge_color (v : String)
  | set_pole_edge_width (v : ℚ)
  | set_marker_style (v : String)
  | set_marker_size (v : ℚ)
  | set_marker_fill (v : String)
  | set_marker_edge_width (v : ℚ)
  | set_marker_edge_color (v : String)
  | set_line_alpha (v : ℚ)
  | set_marker_alpha (v : ℚ)
  | set_render_gcircles (v : Bool)
  | set_render_poles (v : Bool)
  | set_render_linears (v : Bool)
  | set_draw_contour_fills (v : Bool)
  | set_draw_contour_lines (v : Bool)
  | set_draw_contour_labels (v : Bool)
  | set_render_pole_contours (v : Bool)
  | set_render_line_contours (v : Bool)
  | set_rose_spacing (v : ℚ)
  | set_rose_bottom (v : ℚ)
  | set_colormap (v : String)
  | set_contour_resolution (v : ℚ)
  | set_contour_method (v : String)
  | set_contour_line_width (v : ℚ)
  | set_contour_line_color (v : String)
  | set_contour_sigma (v : ℚ)
  | set_contour_line_style (v : String)
  | set_contour_label_size (v : ℚ)
  | set_use_line_color (v : Bool)
  | set_draw_hoeppener (v : Bool)
  | set_draw_lp_plane (v : Bool)
  deriving DecidableEq, Repr

/-- Execute a setter call through the corresponding translated method. -/
def applySetter (l : PlaneLayer) (c : SetterCall) : PlaneLayer :=
  match c with
  | .set_line_color v => l.set_line_color v
  | .set_label v => l.set_label v
  | .set_line_width v => l.set_line_width v
  | .set_line_style v => l.set_line_style v
  | .set_capstyle v => l.set_capstyle v
  | .set_pole_style v => l.set_pole_style v
  | .set_pole_size v => l.set_pole_size v
  | .set_pole_fill v => l.set_pole_fill v
  | .set_pole_edge_color v => l.set_pole_edge_color v
  | .set_pole_edge_width v => l.set_pole_edge_width v
  | .set_marker_style v => l.set_marker_style v
  | .set_marker_size v => l.set_marker_size v
  | .set_marker_fill v => l.set_marker_fill v
  | .set_marker_edge_width v => l.set_marker_edge_width v
  | .set_marker_edge_color v => l.set_marker_edge_color v
  | .set_line_alpha v => l.set_line_alpha v
  | .set_marker_alpha v => l.set_marker_alpha v
  | .set_render_gcircles v => l.set_render_gcircles v
  | .set_render_poles v => l.set_render_poles v
  | .set_render_linears v => l.set_render_linears v
  | .set_draw_contour_fills v => l.set_draw_contour_fills v
  | .set_draw_contour_lines v => l.set_draw_contour_lines v
  | .set_draw_contour_labels v => l.set_draw_contour_labels v
  | .set_render_pole_contours v => l.set_render_pole_contours v
  | .set_render_line_contours v => l.set_render_line_contours v
  | .set_rose_spacing v => l.set_rose_spacing v
  | .set_rose_bottom v => l.set_rose_bottom v
  | .set_colormap v => l.set_colormap v
  | .set_contour_resolution v => l.set_contour_resolution v
  | .set_contour_method v => l.set_contour_method v
  | .set_contour_line_width v => l.set_contour_line_width v
  | .set_contour_line_color v => l.set_contour_line_color v
  | .set_contour_sigma v => l.set_contour_sigma v
  | .set_contour_line_style v => l.set_contour_line_style v
  | .set_contour_label_size v => l.set_contour_label_size v
  | .set_use_line_color v => l.set_use_line_color v
  | .set_draw_hoeppener v => l.set_draw_hoeppener v
  | .set_draw_lp_plane v => l.set_draw_lp_plane v

/-- The attribute a setter call writes. -/
def setterTarget (c : SetterCall) : Attr :=
  match c with
  | .set_line_color _ => .line_color
  | .set_label _ => .label
  | .set_line_width _ => .line_width
  | .set_line_style _ => .line_style
  | .set_capstyle _ => .capstyle
  | .set_pole_style _ => .pole_style
  | .set_pole_size _ => .pole_size
  | .set_pole_fill _ => .pole_fill
  | .set_pole_edge_color _ => .pole_edge_color
  | .set_pole_edge_width _ => .pole_edge_width
  | .set_marker_style _ => .marker_style
  | .set_marker_size _ => .marker_size
  | .set_marker_fill _ => .marker_fill
  | .set_marker_edge_width _ => .marker_edge_width
  | .set_marker_edge_color _ => .marker_edge_color
  | .set_line_alpha _ => .line_alpha
  | .set_marker_alpha _ => .marker_alpha
  | .set_render_gcircles _ => .render_gcircles
  | .set_render_poles _ => .render_poles
  | .set_render_linears _ => .render_linears
  | .set_draw_contour_fills _ => .draw_contour_fills
  | .set_draw_contour_lines _ => .draw_contour_lines
  | .set_draw_contour_labels _ => .draw_contour_labels
  | .set_render_pole_contours _ => .render_plane_contours
  | .set_render_line_contours _ => .render_line_contours
  | .set_rose_spacing _ => .rose_spacing
  | .set_rose_bottom _ => .rose_bottom
  | .set_colormap _ => .colormap
  | .set_contour_resolution _ => .contour_resolution
  | .set_contour_method _ => .contour_method
  | .set_contour_line_width _ => .contour_line_width
  | .set_contour_line_color _ => .contour_line_color
  | .set_contour_sigma _ => .contour_sigma
  | .set_contour_line_style _ => .contour_line_style
  | .set_contour_label_size _ => .contour_label_size
  | .set_use_line_color _ => .contour_use_line_color
  | .set_draw_hoeppener _ => .draw_hoeppener
  | .set_draw_lp_plane _ => .draw_lp_plane

/-- The value a setter call was given. -/
def setterArg (c : SetterCall) : AttrValue :=
  match c with
  | .set_line_color v => .strV v
  | .set_label v => .strV v
  | .set_line_width v => .ratV v
  | .set_line_style v => .strV v
  | .set_capstyle v => .strV v
  | .set_pole_style v => .strV v
  | .set_pole_size v => .ratV v
  | .set_pole_fill v => .strV v
  | .set_pole_edge_color v => .strV v
  | .set_pole_edge_width v => .ratV v
  | .set_marker_style v => .strV v
  | .set_marker_size v => .ratV v
  | .set_marker_fill v => .strV v
  | .set_marker_edge_width v => .ratV v
  | .set_marker_edge_color v => .strV v
  | .set_line_alpha v => .ratV v
  | .set_marker_alpha v => .ratV v
  | .set_render_gcircles v => .boolV v
  | .set_render_poles v => .boolV v
  | .set_render_linears v => .boolV v
  | .set_draw_contour_fills v => .boolV v
  | .set_draw_contour_lines v => .boolV v
  | .set_draw_contour_labels v => .boolV v
  | .set_render_pole_contours v => .boolV v
  | .set_render_line_contours v => .boolV v
  | .set_rose_spacing v => .ratV v
  | .set_rose_bottom v => .ratV v
  | .set_colormap v => .strV v
  | .set_contour_resolution v => .ratV v
  | .set_contour_method v => .strV v
  | .set_contour_line_width v => .ratV v
  | .set_contour_line_color v => .strV v
  | .set_contour_sigma v => .ratV v
  | .set_contour_line_style v => .strV v
  | .set_contour_label_size v => .ratV v
  | .set_use_line_color v => .boolV v
  | .set_draw_hoeppener v => .boolV v
  | .set_draw_lp_plane v => .boolV v

/-- A sequence of setter calls executed left to right. -/
def applyAll (l : PlaneLayer) (cs : List SetterCall) : PlaneLayer :=
  cs.foldl applySetter l

/-! ## Helper lemmas -/

/-- No setter method writes the `type` attribute. -/
theorem applySetter_type (l : PlaneLayer) (c : SetterCall) :
    (applySetter l c).type = l.type := by
  cases c <;> rfl

/-- No sequence of setter calls writes the `type` attribute. -/
theorem applyAll_type (cs : List SetterCall) :
    ∀ l : PlaneLayer, (applyAll l cs).type = l.type := by
  induction cs with
  | nil => intro l; rfl
  | cons c cs ih =>
    intro l
    exact (ih (applySetter l c)).trans (applySetter_type l c)

/-- Coherence of the setter table: `hasSetter` marks exactly the
attributes some setter call writes. -/
theorem hasSetter_iff_target (a : Attr) :
    hasSetter a = true ↔ ∃ c : SetterCall, setterTarget c = a := by
  constructor
  · intro h
    cases a <;> first
      | exact absurd h (by decide)
      | exact ⟨.set_line_color "", rfl⟩
      | exact ⟨.set_label "", rfl⟩
      | exact ⟨.set_line_width 0, rfl⟩
      | exact ⟨.set_line_style "", rfl⟩
      | exact ⟨.set_line_alpha 0, rfl⟩
      | exact ⟨.set_capstyle "", rfl⟩
      | exact ⟨.set_render_gcircles false, rfl⟩
      | exact ⟨.set_render_poles false, rfl⟩
      | exact ⟨.set_pole_style "", rfl⟩
      | exact ⟨.set_pole_size 0, rfl⟩
      | exact ⟨.set_pole_fill "", rfl⟩
      | exact ⟨.set_pole_edge_color "", rfl⟩
      | exact ⟨.set_pole_edge_width 0, rfl⟩
      | exact ⟨.set_render_linears false, rfl⟩
      | exact ⟨.set_marker_style "", rfl⟩
      | exact ⟨.set_marker_size 0, rfl⟩
      | exact ⟨.set_marker_fill "", rfl⟩
      | exact ⟨.set_marker_edge_color "", rfl⟩
      | exact ⟨.set_marker_edge_width 0, rfl⟩
      | exact ⟨.set_marker_alpha 0, rfl⟩
      | exact ⟨.set_rose_spacing 0, rfl⟩
      | exact ⟨.set_rose_bottom 0, rfl⟩
      | exact ⟨.set_draw_hoeppener false, rfl⟩
      | exact ⟨.set_draw_lp_plane false, rfl⟩
      | exact ⟨.set_draw_contour_fills false, rfl⟩
      | exact ⟨.set_draw_contour_lines false, rfl⟩
      | exact ⟨.set_draw_contour_labels false, rfl⟩
      | exact ⟨.set_render_pole_contours false, rfl⟩
      | exact ⟨.set_render_line_contours false, rfl⟩
      | exact ⟨.set_colormap "", rfl⟩
      | exact ⟨.set_contour_resolution 0, rfl⟩
      | exact ⟨.set_contour_method "", rfl⟩
      | exact ⟨.set_contour_sigma 0, rfl⟩
      | exact ⟨.set_contour_line_color "", rfl⟩
      | exact ⟨.set_use_line_color false, rfl⟩
      | exact ⟨.set_contour_line_width 0, rfl⟩
      | exact ⟨.set_contour_line_style "", rfl⟩
      | exact ⟨.set_contour_label_size 0, rfl⟩
  · rintro ⟨c, rfl⟩
    cases c <;> rfl

/-! ## Claims -/

/-- Claim C1: for every attribute with a getter/setter pair and every
value in its domain, calling the setter on any layer (any of the four
kinds share this structure and these methods, in any state) and then the
getter returns exactly the value that was set. -/
theorem claim_C1_setter_roundtrip (l : PlaneLayer) (c : SetterCall) :
    getAttr (applySetter l c) (setterTarget c) = setterArg c := by
  cases c <;> rfl

set_option maxHeartbeats 2000000 in
/-- Claim C2: every setter call leaves every attribute other than its
target (including kind, label, the two handles and all other styling
attributes) unchanged, on any layer in any state. -/
theorem claim_C2_setter_frame (l : PlaneLayer) (c : SetterCall) (a : Attr)
    (h : a ≠ setterTarget c) :
    getAttr (applySetter l c) a = getAttr l a := by
  cases c <;> cases a <;> first | exact absurd rfl h | rfl

/-- Witness for claim C2 at a concrete layer, setter call and attribute. -/
theorem claim_C2_witness :
    getAttr (applySetter (PlaneLayer.init none none)
        (SetterCall.set_line_color "#123456")) Attr.label =
      getAttr (PlaneLayer.init none none) Attr.label :=
  claim_C2_setter_frame (PlaneLayer.init none none)
    (SetterCall.set_line_color "#123456") Attr.label (by decide)

/-- Claim C3 counterexample: the pole alpha attribute has a getter but no
paired setter in the source, although it is none of the three exceptions
(store handle, view handle, kind) the claim allows. -/
theorem claim_C3_counterexample :
    hasGetter Attr.pole_alpha = true ∧ hasSetter Attr.pole_alpha = false ∧
    Attr.pole_alpha ≠ Attr.data_treestore ∧
    Attr.pole_alpha ≠ Attr.data_treeview ∧
    Attr.pole_alpha ≠ Attr.kind := by
  decide

/-- Claim C3 as amended: every attribute has a getter, and every attribute
other than the store handle, the view handle, the kind, AND the pole
alpha (which is getter-only) has a paired setter. -/
theorem claim_C3_accessor_pairing (a : Attr)
    (h1 : a ≠ Attr.data_treestore) (h2 : a ≠ Attr.data_treeview)
    (h3 : a ≠ Attr.kind) (h4 : a ≠ Attr.pole_alpha) :
    hasGetter a = true ∧ hasSetter a = true := by
  cases a <;> first
    | exact absurd rfl h1
    | exact absurd rfl h2
    | exact absurd rfl h3
    | exact absurd rfl h4
    | exact ⟨rfl, rfl⟩

/-- Witness for claim C3 as amended, at the line color attribute. -/
theorem claim_C3_witness :
    hasGetter Attr.line_color = true ∧ hasSetter Attr.line_color = true :=
  claim_C3_accessor_pairing Attr.line_color (by decide) (by decide)
    (by decide) (by decide)

/-- Claim C4: for all four kinds a freshly constructed layer agrees with a
fresh plane layer on every attribute other than kind and label, and those
shared values are the fixed defaults the claim enumerates; in particular a
fresh FaultPlane layer's `get_draw_hoeppener` returns false identically to
a fresh Plane layer's. -/
theorem claim_C4_defaults (s v : Handle) (a : Attr)
    (h1 : a ≠ Attr.kind) (h2 : a ≠ Attr.label) :
    (getAttr (FaultPlaneLayer.init s v) a = getAttr (PlaneLayer.init s v) a ∧
      getAttr (LineLayer.init s v) a = getAttr (PlaneLayer.init s v) a ∧
      getAttr (SmallCircleLayer.init s v) a =
        getAttr (PlaneLayer.init s v) a) ∧
    (FaultPlaneLayer.init s v).get_draw_hoeppener = false ∧
    (PlaneLayer.init s v).get_line_color = "#0000ff" ∧
    (PlaneLayer.init s v).get_line_width = 1 ∧
    (PlaneLayer.init s v).get_line_style = "-" ∧
    (PlaneLayer.init s v).get_line_alpha = 1 ∧
    (PlaneLayer.init s v).get_capstyle = "butt" ∧
    (PlaneLayer.init s v).get_render_gcircles = true ∧
    (PlaneLayer.init s v).get_render_poles = false ∧
    (PlaneLayer.init s v).get_pole_style = "o" ∧
    (PlaneLayer.init s v).get_pole_size = 8 ∧
    (PlaneLayer.init s v).get_pole_fill = "#ff7e00" ∧
    (PlaneLayer.init s v).get_render_linears = true ∧
    (PlaneLayer.init s v).get_marker_fill = "#1283eb" ∧
    (PlaneLayer.init s v).get_marker_size = 8 ∧
    (PlaneLayer.init s v).get_rose_spacing = 10 ∧
    (PlaneLayer.init s v).get_rose_bottom = 0 ∧
    (PlaneLayer.init s v).get_draw_hoeppener = false ∧
    (PlaneLayer.init s v).get_draw_lp_plane = false ∧
    (PlaneLayer.init s v).get_draw_contour_fills = false ∧
    (PlaneLayer.init s v).get_draw_contour_lines = false ∧
    (PlaneLayer.init s v).get_draw_contour_labels = false ∧
    (PlaneLayer.init s v).get_render_pole_contours = false ∧
    (PlaneLayer.init s v).get_render_line_contours = true ∧
    (PlaneLayer.init s v).get_colormap = "Blues" ∧
    (PlaneLayer.init s v).get_contour_resolution = 40 ∧
    (PlaneLayer.init s v).get_contour_method = "exponential_kamb" ∧
    (PlaneLayer.init s v).get_contour_sigma = 2 ∧
    (PlaneLayer.init s v).get_contour_line_color = "#000000" ∧
    (PlaneLayer.init s v).get_contour_line_width = 1 ∧
    (PlaneLayer.init s v).get_contour_line_style = "-" ∧
    (PlaneLayer.init s v).get_contour_label_size = 12 ∧
    (PlaneLayer.init s v).get_use_line_color = true := by
  refine ⟨⟨?_, ?_, ?_⟩, rfl, rfl, rfl, rfl, rfl, rfl, rfl, rfl, rfl, rfl,
    rfl, rfl, rfl, rfl, rfl, rfl, rfl, rfl, rfl, rfl, rfl, rfl, rfl, rfl,
    rfl, rfl, rfl, rfl, rfl, rfl, rfl, rfl⟩ <;>
    cases a <;> first
      | exact absurd rfl h1
      | exact absurd rfl h2
      | rfl

/-- Witness for claim C4 at concrete handles and the line color
attribute. -/
theorem claim_C4_witness :
    getAttr (FaultPlaneLayer.init none none) Attr.line_color =
        getAttr (PlaneLayer.init none none) Attr.line_color ∧
      getAttr (LineLayer.init none none) Attr.line_color =
        getAttr (PlaneLayer.init none none) Attr.line_color ∧
      getAttr (SmallCircleLayer.init none none) Attr.line_color =
        getAttr (PlaneLayer.init none none) Attr.line_color :=
  (claim_C4_defaults none none Attr.line_color (by decide) (by decide)).1

/-- Claim C5: a freshly constructed layer of each kind reports its fixed
tag through `get_layer_type`, the kind has no setter, and no sequence of
setter calls changes the reported kind. -/
theorem claim_C5_kind_fixed (s v : Handle) (cs : List SetterCall) :
    (applyAll (PlaneLayer.init s v) cs).get_layer_type = "plane" ∧
    (applyAll (FaultPlaneLayer.init s v) cs).get_layer_type =
      "faultplane" ∧
    (applyAll (LineLayer.init s v) cs).get_layer_type = "line" ∧
    (applyAll (SmallCircleLayer.init s v) cs).get_layer_type =
      "smallcircle" ∧
    hasSetter Attr.kind = false :=
  ⟨(applyAll_type cs (PlaneLayer.init s v)).trans rfl,
    (applyAll_type cs (FaultPlaneLayer.init s v)).trans rfl,
    (applyAll_type cs (LineLayer.init s v)).trans rfl,
    (applyAll_type cs (SmallCircleLayer.init s v)).trans rfl,
    rfl⟩

/-- Claim C6: immediately after construction each kind carries its fixed
default label. -/
theorem claim_C6_default_labels (s v : Handle) :
    (PlaneLayer.init s v).get_label = "Plane layer" ∧
    (FaultPlaneLayer.init s v).get_label = "Faultplane layer" ∧
    (LineLayer.init s v).get_label = "Linear layer" ∧
    (SmallCircleLayer.init s v).get_label = "Small circle layer" :=
  ⟨rfl, rfl, rfl, rfl⟩

set_option maxHeartbeats 2000000 in
/-- Claim C7: the preview pixbuf of a fresh Plane layer is filled with the
line color `#0000ff` plus a full-opacity alpha byte (pixel `0x0000ffff`,
decoding to RGB (0,0,255) with alpha byte 0xff); `LineLayer` overrides the
method so a fresh Line layer's pixbuf is filled with the marker fill
`#1283eb` (pixel `0x1283ebff`, RGB (18,131,235)), different from what the
base derivation would give for the same layer; FaultPlane and SmallCircle
do not override the method, so their fresh layers get the base, line-color
derivation. -/
theorem claim_C7_preview_color (s v : Handle) :
    (PlaneLayer.init s v).get_pixbuf = Except.ok ⟨16, 16, true, 65535⟩ ∧
    Except.map
        (fun p => (pixelRed p.fill_pixel, pixelGreen p.fill_pixel,
          pixelBlue p.fill_pixel, pixelAlpha p.fill_pixel))
        (PlaneLayer.init s v).get_pixbuf = Except.ok (0, 0, 255, 255) ∧
    LineLayer.get_pixbuf (LineLayer.init s v) =
      Except.ok ⟨16, 16, true, 310635519⟩ ∧
    Except.map
        (fun p => (pixelRed p.fill_pixel, pixelGreen p.fill_pixel,
          pixelBlue p.fill_pixel, pixelAlpha p.fill_pixel))
        (LineLayer.get_pixbuf (LineLayer.init s v)) =
      Except.ok (18, 131, 235, 255) ∧
    PlaneLayer.get_pixbuf (FaultPlaneLayer.init s v) =
      PlaneLayer.get_pixbuf (PlaneLayer.init s v) ∧
    PlaneLayer.get_pixbuf (SmallCircleLayer.init s v) =
      PlaneLayer.get_pixbuf (PlaneLayer.init s v) ∧
    LineLayer.get_pixbuf (LineLayer.init s v) ≠
      PlaneLayer.get_pixbuf (LineLayer.init s v) := by
  refine ⟨rfl, rfl, rfl, rfl, rfl, rfl, fun hc => ?_⟩
  have h1 : LineLayer.get_pixbuf (LineLayer.init s v) =
      Except.ok ⟨16, 16, true, 310635519⟩ := rfl
  have h2 : PlaneLayer.get_pixbuf (LineLayer.init s v) =
      Except.ok ⟨16, 16, true, 65535⟩ := rfl
  have h3 := (h1.symm.trans hc).trans h2
  simp at h3

/-- Claim C8: on any layer whose stored line color is `#ff7e00`,
`get_rgba` returns (without failing) a `Gdk.Color` whose three channels
decode to the 8-bit components (255, 126, 0); the result carries no alpha
component (`GdkColor` has none) and depends only on the stored string. -/
theorem claim_C8_line_rgba (l : PlaneLayer)
    (h : l.get_line_color = "#ff7e00") :
    l.get_rgba = Except.ok ⟨65535, 32382, 0⟩ ∧
    Except.map
        (fun c => (gdkColorByte c.red, gdkColorByte c.green,
          gdkColorByte c.blue)) l.get_rgba = Except.ok (255, 126, 0) ∧
    ∀ l2 : PlaneLayer, l2.get_line_color = l.get_line_color →
      l2.get_rgba = l.get_rgba := by
  have hl : l.line_color = "#ff7e00" := h
  have he : l.get_rgba = Except.ok ⟨65535, 32382, 0⟩ := by
    unfold PlaneLayer.get_rgba
    rw [hl]
    rfl
  refine ⟨he, by rw [he]; rfl, fun l2 h2 => ?_⟩
  unfold PlaneLayer.get_rgba
  rw [show l2.line_color = l.line_color from h2]

/-- Witness for claim C8 on a concrete layer holding line color
`#ff7e00`. -/
theorem claim_C8_witness :
    ((PlaneLayer.init none none).set_line_color "#ff7e00").get_rgba =
      Except.ok ⟨65535, 32382, 0⟩ :=
  (claim_C8_line_rgba
    ((PlaneLayer.init none none).set_line_color "#ff7e00") rfl).1

/-- Claim C9 counterexample: after `set_line_color "notacolor"` the next
`get_rgba` call does NOT fail with a parse error; the parse failure flag
is discarded and the untouched default `Gdk.RGBA` (all channels zero) is
converted, so the call succeeds with black. -/
theorem claim_C9_counterexample :
    ((PlaneLayer.init none none).set_line_color "notacolor").get_rgba =
      Except.ok ⟨0, 0, 0⟩ ∧
    ((PlaneLayer.init none none).set_line_color "notacolor").get_rgba ≠
      Except.error LayerError.parseError := by
  have he : ((PlaneLayer.init none none).set_line_color
      "notacolor").get_rgba = Except.ok ⟨0, 0, 0⟩ := rfl
  exact ⟨he, fun hc => Except.noConfusion (he.symm.trans hc)⟩

/-- Claim C9 as amended: `set_line_color` accepts a non-hex string without
raising (the string is stored verbatim), and the next `get_rgba` does not
fail either: the toolkit parse reports failure through a boolean the
source discards, so the getter silently returns the default color (black)
instead of surfacing a parse error. -/
theorem claim_C9_invalid_color (l : PlaneLayer) :
    (l.set_line_color "notacolor").get_line_color = "notacolor" ∧
    (l.set_line_color "notacolor").get_rgba = Except.ok ⟨0, 0, 0⟩ ∧
    (GdkRGBA.mk0.parse "notacolor").1 = false := by
  have hs : (l.set_line_color "notacolor").line_color = "notacolor" := rfl
  refine ⟨rfl, ?_, rfl⟩
  unfold PlaneLayer.get_rgba
  rw [hs]
  rfl

/-- Claim C10 counterexample: constructing a Plane layer with null store
and view handles succeeds (the constructor performs no validation), so
construction does not fail fast. -/
theorem claim_C10_counterexample :
    PlaneLayer.create none none =
      Except.ok (PlaneLayer.init none none) ∧
    ∀ e : LayerError, PlaneLayer.create none none ≠ Except.error e :=
  ⟨rfl, fun _ hc => Except.noConfusion hc⟩

/-- Claim C10 as amended: construction of any of the four kinds succeeds
for every store/view argument, null handles included; the handles are
stored as given and returned unchanged by their getters, so an invalid
handle surfaces only when a collaborator later uses it. -/
theorem claim_C10_null_construction (ts tv : Handle) :
    PlaneLayer.create ts tv = Except.ok (PlaneLayer.init ts tv) ∧
    FaultPlaneLayer.create ts tv =
      Except.ok (FaultPlaneLayer.init ts tv) ∧
    LineLayer.create ts tv = Except.ok (LineLayer.init ts tv) ∧
    SmallCircleLayer.create ts tv =
      Except.ok (SmallCircleLayer.init ts tv) ∧
    (PlaneLayer.init ts tv).get_data_treestore = ts ∧
    (PlaneLayer.init ts tv).get_data_treeview = tv :=
  ⟨rfl, rfl, rfl, rfl, rfl, rfl⟩
